import Mathlib

/-!
Shallow embedding of the `empyricalRMT` sources (`rmt/ensemble.py`,
`rmt/construct.py`, `rmt/unfold.py`).  Machine floats are modelled by real
numbers; the external pseudorandom sampling and the external symmetric
eigen-decomposition (`np.linalg.eigvalsh`) are abstracted as explicit list
parameters standing for their outputs.
-/

set_option linter.unusedVariables false
set_option maxRecDepth 8192

open Real

namespace EmpyricalRMT

/-- Source `np.linspace(lo, hi, n)`: `n` evenly spaced points from `lo` to `hi`
inclusive (step `(hi - lo)/(n - 1)`; the single point `lo` when `n = 1`). -/
noncomputable def linspace (lo hi : ℝ) (n : ℕ) : List ℝ :=
  (List.range n).map fun i : ℕ => lo + (i : ℝ) * (hi - lo) / ((n : ℝ) - 1)

/-! ### `rmt/ensemble.py`

Each observable takes the `(min, max)` range, the point-count argument and an
optional explicit points list (`None` in Python is `none` here), mirroring the
source signatures.  Default argument values of the source are recorded in the
theorems (Lean default-argument syntax is not used). -/

namespace Poisson

/-- Source `Poisson.nnsd` body formula: `np.exp(-s)`. -/
noncomputable def nnsd_formula (s : ℝ) : ℝ := exp (-s)

/-- Source `Poisson.nnsd` (source defaults: range `(0.0, 3.0)`, `n_points = 1000`). -/
noncomputable def nnsd (spacings_range : ℝ × ℝ) (n_points : ℕ)
    (spacings : Option (List ℝ)) : List ℝ :=
  (spacings.getD (linspace spacings_range.1 spacings_range.2 n_points)).map nnsd_formula

/-- Source `brody_dist(s, beta)` from `Poisson.nnnsd`:
`b1 * alpha * s ** beta * np.exp(-alpha * s ** b1)` with `b1 = beta + 1`,
`alpha = gamma((beta + 2) / b1) ** b1`. -/
noncomputable def brody_dist (s beta : ℝ) : ℝ :=
  (beta + 1) * (Real.Gamma ((beta + 2) / (beta + 1)) ^ (beta + 1)) * s ^ beta *
    exp (-((Real.Gamma ((beta + 2) / (beta + 1)) ^ (beta + 1)) * s ^ (beta + 1)))

/-- Source `Poisson.nnnsd` (source defaults: range `(0.0, 4.0)`, `n_points = 1000`):
`brody_dist(s, 0.6)` over the grid. -/
noncomputable def nnnsd (spacings_range : ℝ × ℝ) (n_points : ℕ)
    (spacings : Option (List ℝ)) : List ℝ :=
  (spacings.getD (linspace spacings_range.1 spacings_range.2 n_points)).map
    (fun s => brody_dist s 0.6)

/-- Source `Poisson.spectral_rigidity` body formula: `L / 15 / 2`. -/
noncomputable def rigidity_formula (L : ℝ) : ℝ := L / 15 / 2

/-- Source `Poisson.spectral_rigidity` (source defaults: `min_L = 0.5`, `max_L = 20`,
`L_grid_size = 50`). -/
noncomputable def spectral_rigidity (min_L max_L : ℝ) (L_grid_size : ℕ)
    (L : Option (List ℝ)) : List ℝ :=
  (L.getD (linspace min_L max_L L_grid_size)).map rigidity_formula

/-- Source `Poisson.level_variance` body formula: `s / 2`. -/
noncomputable def levelvar_formula (s : ℝ) : ℝ := s / 2

/-- Source `Poisson.level_variance` (source defaults as for `spectral_rigidity`). -/
noncomputable def level_variance (min_L max_L : ℝ) (L_grid_size : ℕ)
    (L : Option (List ℝ)) : List ℝ :=
  (L.getD (linspace min_L max_L L_grid_size)).map levelvar_formula

end Poisson

namespace GOE

/-- Source `GOE.nnsd` body formula: `((pi * s) / 2) * np.exp(-(pi / 4) * s * s)`. -/
noncomputable def nnsd_formula (s : ℝ) : ℝ := ((π * s) / 2) * exp (-(π / 4) * s * s)

/-- Source `GOE.nnsd` (source defaults: range `(0.0, 3.0)`, `n_points = 1000`). -/
noncomputable def nnsd (spacings_range : ℝ × ℝ) (n_points : ℕ)
    (spacings : Option (List ℝ)) : List ℝ :=
  (spacings.getD (linspace spacings_range.1 spacings_range.2 n_points)).map nnsd_formula

/-- Source `GOE.nnnsd` body formula:
`(2**18 / (3**6 * pi**3)) * (s**4) * np.exp(-((64 / (9 * pi)) * (s * s)))`. -/
noncomputable def nnnsd_formula (s : ℝ) : ℝ :=
  (2 ^ 18 / (3 ^ 6 * π ^ 3)) * s ^ 4 * exp (-((64 / (9 * π)) * (s * s)))

/-- Source `GOE.nnnsd` (source defaults: range `(0.0, 3.0)`, `n_points = 1000`).  When
no explicit spacings are given the generated grid is divided by 2 before the
formula is applied. -/
noncomputable def nnnsd (spacings_range : ℝ × ℝ) (n_points : ℕ)
    (spacings : Option (List ℝ)) : List ℝ :=
  (spacings.getD
      ((linspace spacings_range.1 spacings_range.2 n_points).map (fun x => x / 2))).map
    nnnsd_formula

/-- Source `GOE.spectral_rigidity` body formula:
`(1 / pi**2) * (np.log(2 * pi * s) + euler_gamma - 5 / 4 - pi**2 / 8)`. -/
noncomputable def rigidity_formula (s : ℝ) : ℝ :=
  (1 / π ^ 2) * (log (2 * π * s) + eulerMascheroniConstant - 5 / 4 - π ^ 2 / 8)

/-- Source `GOE.spectral_rigidity` (source defaults: `0.5`, `20`, `50`). -/
noncomputable def spectral_rigidity (min_L max_L : ℝ) (L_grid_size : ℕ)
    (L : Option (List ℝ)) : List ℝ :=
  (L.getD (linspace min_L max_L L_grid_size)).map rigidity_formula

/-- Source `GOE.level_variance` body formula:
`(2 / pi**2) * (np.log(2 * pi * s) + euler_gamma + 1 - pi**2 / 8)`. -/
noncomputable def levelvar_formula (s : ℝ) : ℝ :=
  (2 / π ^ 2) * (log (2 * π * s) + eulerMascheroniConstant + 1 - π ^ 2 / 8)

/-- Source `GOE.level_variance` (source defaults: `0.5`, `20`, `50`). -/
noncomputable def level_variance (min_L max_L : ℝ) (L_grid_size : ℕ)
    (L : Option (List ℝ)) : List ℝ :=
  (L.getD (linspace min_L max_L L_grid_size)).map levelvar_formula

end GOE

namespace GUE

/-- Source `GUE.nnsd` body formula: `(32 / pi**2) * (s * s) * np.exp(-(4 * s * s) / pi)`. -/
noncomputable def nnsd_formula (s : ℝ) : ℝ := (32 / π ^ 2) * (s * s) * exp (-(4 * s * s) / π)

/-- Source `GUE.nnsd` (source defaults: range `(0.0, 3.0)`, `n_points = 1000`).  The
default branch generates `linspace(range[0], range[1], 10000)`, ignoring the
`n_points` argument. -/
noncomputable def nnsd (spacings_range : ℝ × ℝ) (n_points : ℕ)
    (spacings : Option (List ℝ)) : List ℝ :=
  (spacings.getD (linspace spacings_range.1 spacings_range.2 10000)).map nnsd_formula

/-- Source `GUE.nnnsd`: `raise NotImplementedError()` unconditionally. -/
def nnnsd (spacings_range : ℝ × ℝ) (n_points : ℕ)
    (spacings : Option (List ℝ)) : Except String (List ℝ) :=
  .error "NotImplementedError"

/-- Source `GUE.spectral_rigidity` body formula:
`(1 / (2 * pi**2)) * (np.log(2 * pi * s) + euler_gamma - 5 / 4)`. -/
noncomputable def rigidity_formula (s : ℝ) : ℝ :=
  (1 / (2 * π ^ 2)) * (log (2 * π * s) + eulerMascheroniConstant - 5 / 4)

/-- Source `GUE.spectral_rigidity` (source defaults: `0.5`, `20`, `50`). -/
noncomputable def spectral_rigidity (min_L max_L : ℝ) (L_grid_size : ℕ)
    (L : Option (List ℝ)) : List ℝ :=
  (L.getD (linspace min_L max_L L_grid_size)).map rigidity_formula

/-- Source `GUE.level_variance` body formula:
`(1 / pi**2) * (np.log(2 * pi * s) + euler_gamma + 1)`. -/
noncomputable def levelvar_formula (s : ℝ) : ℝ :=
  (1 / π ^ 2) * (log (2 * π * s) + eulerMascheroniConstant + 1)

/-- Source `GUE.level_variance` (source defaults: `0.5`, `20`, `50`). -/
noncomputable def level_variance (min_L max_L : ℝ) (L_grid_size : ℕ)
    (L : Option (List ℝ)) : List ℝ :=
  (L.getD (linspace min_L max_L L_grid_size)).map levelvar_formula

end GUE

namespace GSE

/-- Source `GSE.nnsd` body formula:
`(262144 / (729 * pi**3)) * (s**4) * np.exp(-((64 / (9 * pi)) * (s * s)))`. -/
noncomputable def nnsd_formula (s : ℝ) : ℝ :=
  (262144 / (729 * π ^ 3)) * s ^ 4 * exp (-((64 / (9 * π)) * (s * s)))

/-- Source `GSE.nnsd` (source defaults: range `(0.0, 3.0)`, `n_points = 1000`).  The
default branch generates `linspace(range[0], range[0], 10000)` — a degenerate
constant grid — ignoring both `range[1]` and `n_points`. -/
noncomputable def nnsd (spacings_range : ℝ × ℝ) (n_points : ℕ)
    (spacings : Option (List ℝ)) : List ℝ :=
  (spacings.getD (linspace spacings_range.1 spacings_range.1 10000)).map nnsd_formula

/-- Source `GSE.nnnsd`: `raise NotImplementedError()` unconditionally. -/
def nnnsd (spacings_range : ℝ × ℝ) (n_points : ℕ)
    (spacings : Option (List ℝ)) : Except String (List ℝ) :=
  .error "NotImplementedError"

/-- Source `GSE.spectral_rigidity` body formula:
`(1 / (4 * pi**2)) * (np.log(4 * pi * s) + euler_gamma - 5 / 4 + pi**2 / 8)`. -/
noncomputable def rigidity_formula (s : ℝ) : ℝ :=
  (1 / (4 * π ^ 2)) * (log (4 * π * s) + eulerMascheroniConstant - 5 / 4 + π ^ 2 / 8)

/-- Source `GSE.spectral_rigidity` (source defaults: `0.5`, `20`, `50`). -/
noncomputable def spectral_rigidity (min_L max_L : ℝ) (L_grid_size : ℕ)
    (L : Option (List ℝ)) : List ℝ :=
  (L.getD (linspace min_L max_L L_grid_size)).map rigidity_formula

/-- Source `GSE.level_variance` body formula:
`(1 / (2 * pi**2)) * (np.log(4 * pi * s) + euler_gamma + 1 + pi**2 / 8)`. -/
noncomputable def levelvar_formula (s : ℝ) : ℝ :=
  (1 / (2 * π ^ 2)) * (log (4 * π * s) + eulerMascheroniConstant + 1 + π ^ 2 / 8)

/-- Source `GSE.level_variance` (source defaults: `0.5`, `20`, `50`). -/
noncomputable def level_variance (min_L max_L : ℝ) (L_grid_size : ℕ)
    (L : Option (List ℝ)) : List ℝ :=
  (L.getD (linspace min_L max_L L_grid_size)).map levelvar_formula

end GSE

/-! ### `rmt/unfold.py` -/

/-- The `Unfolded` container of `unfold.py`.  `originals` is the sequence the
`EigVals` base stores (the base container's file is not among the sources;
per the spec it materializes the ingested sequence), and `unfolded_vals` is
the `_vals` attribute set from the `unfolded` constructor argument. -/
structure Unfolded where
  originals : List ℝ
  unfolded_vals : List ℝ

/-- Source `Unfolded.__init__(originals, unfolded)`: stores `originals` via the base
and stores `np.array(unfolded)` in `_vals`; no validation of any kind is
performed on the pair. -/
def Unfolded.init (originals unfolded : List ℝ) : Unfolded :=
  { originals := originals, unfolded_vals := unfolded }

/-- The `values` property: returns `self._vals`. -/
def Unfolded.values (u : Unfolded) : List ℝ := u.unfolded_vals

/-- The `vals` property: returns `self._vals`. -/
def Unfolded.vals (u : Unfolded) : List ℝ := u.unfolded_vals

/-- Source `Unfolded.plot_spectral_rigidity`.  The spectral-rigidity estimator
(`observables/rigidity.py`, not among the sources) and the plotting layer are
abstracted as function parameters; the method passes `self.values` to both,
exactly as the source does, and returns `(L, delta, plot_result)`. -/
def plot_spectral_rigidity {P : Type} (spectralRigidity : List ℝ → ℕ → Option ℕ → ℝ → ℝ → List ℝ × List ℝ) (render : List ℝ → List ℝ × List ℝ → Option P) (u : Unfolded) (min_L max_L : ℝ) (L_grid_size : Option ℕ) (c_iters : ℕ) : List ℝ × List ℝ × Option P :=
  ((spectralRigidity u.values c_iters L_grid_size min_L max_L).1,
   (spectralRigidity u.values c_iters L_grid_size min_L max_L).2,
   render u.values (spectralRigidity u.values c_iters L_grid_size min_L max_L))

/-- Source `Unfolded.plot_level_variance`.  The level-number-variance estimator
(`observables/levelvariance.py`, not among the sources) and the plotting layer
are abstracted as function parameters; the method passes `self.values` to
both, exactly as the source does, and returns `(L, sigma, plot_result)`. -/
def plot_level_variance {P : Type} (level_number_variance : List ℝ → ℕ → Option ℕ → ℝ → ℝ → List ℝ × List ℝ) (render : List ℝ → List ℝ × List ℝ → Option P) (u : Unfolded) (min_L max_L : ℝ) (L_grid_size : Option ℕ) (c_iters : ℕ) : List ℝ × List ℝ × Option P :=
  ((level_number_variance u.values c_iters L_grid_size min_L max_L).1,
   (level_number_variance u.values c_iters L_grid_size min_L max_L).2,
   render u.values (level_number_variance u.values c_iters L_grid_size min_L max_L))

/-! ### `rmt/construct.py` -/

/-- The `MatrixKind` literal union of `construct.py`. -/
inductive MatrixKind
  | goe
  | gue
  | uniform
  | poisson
deriving DecidableEq

/-- Source `generate_eigs(matsize, mean, sd, kind, log)`.  The random matrix
construction and the external `np.linalg.eigvalsh` call are abstracted: the
`eigvalsh` parameter stands for the (ascending) eigenvalues computed for the
constructed matrix.  The `"uniform"` branch raises before any matrix is
built. -/
def generate_eigs (matsize : ℕ) (mean sd : ℝ) (kind : MatrixKind)
    (eigvalsh : List ℝ) : Except String (List ℝ) :=
  match kind with
  | .uniform => .error "UNIMPLEMENTED!"
  | _ => .ok eigvalsh

/-- The nested `explicit(E)` function of `goe_unfolded`, for `N = matsize`:
the asymptotic-semicircle cumulative density.  (The source's fourth,
`raise ValueError("Unreachable!")` arm is provably unreachable over the
reals: after the first two tests fail, `E > 2 * sqrt N` holds.) -/
noncomputable def explicit (N : ℕ) (E : ℝ) : ℝ :=
  if |E| ≤ 2 * Real.sqrt N then
    0.5 + (E / (4 * N * π)) * Real.sqrt (4 * N - E * E)
      + (1 / π) * arctan (E / Real.sqrt (4 * N - E * E))
  else if E < -(2 * Real.sqrt N) then 0
  else 1

/-- Source `goe_unfolded(matsize)`.  The GOE matrix generation and `eigvalsh` are
abstracted: `eigs` stands for the ascending eigenvalues of the generated
`matsize × matsize` GOE matrix.  Each unfolded entry is
`N * explicit(eigs[i])` (multiplied by `N` in the source "to prevent
overflow issues"). -/
noncomputable def goe_unfolded (matsize : ℕ) (eigs : List ℝ) : Unfolded :=
  Unfolded.init eigs (eigs.map fun E => (matsize : ℝ) * explicit matsize E)

/-- Source `fast_poisson_eigs(matsize, sub_matsize)`.  Randomness/eigen-decomposition
oracles: `sub_eigvalsh i` stands for the eigenvalues of the `i`-th generated
`sub_matsize × sub_matsize` GOE matrix, `remain_eigvalsh` for those of the
remainder matrix of size `matsize % sub_matsize`, and `goe_eigvalsh` for the
result the `generate_eigs(matsize, kind="goe")` fallback would produce. -/
noncomputable def fast_poisson_eigs (matsize sub_matsize : ℕ)
    (sub_eigvalsh : ℕ → List ℝ) (remain_eigvalsh : List ℝ)
    (goe_eigvalsh : List ℝ) : Except String (List ℝ) :=
  if matsize < 100 then generate_eigs matsize 0 1 .goe goe_eigvalsh
  else if sub_matsize ≥ matsize then
    .error "Submatrices must be smaller in order to speed calculation."
  else
    .ok ((((List.range (matsize / sub_matsize)).map sub_eigvalsh).flatten
      ++ remain_eigvalsh).mergeSort)

/-- Source `generate_uniform(matsize, lower, upper)`: `raise NotImplementedError`
unconditionally. -/
def generate_uniform (matsize : ℕ) (lower upper : ℝ) : Except String (List ℝ) :=
  .error "NotImplementedError"

/-! ### Helper lemmas -/

/-- A degenerate `linspace` with equal endpoints is a constant list. -/
theorem linspace_self (a : ℝ) (n : ℕ) : linspace a a n = List.replicate n a := by
  unfold linspace
  simp only [sub_self, mul_zero, zero_div, add_zero, List.map_const', List.length_range]

/-- The grid `linspace` always produces exactly `n` points. -/
theorem linspace_length (lo hi : ℝ) (n : ℕ) : (linspace lo hi n).length = n := by
  unfold linspace
  rw [List.length_map, List.length_range]

/-! ### Theorems for the claims -/

/-- C1: for each of the four ensembles and for every evaluation grid `L`
(generated from a range or supplied explicitly), `spectral_rigidity` and
`level_variance` return a list of the same length as the grid whose `i`-th
entry is the spec table's closed form at `L[i]`: Poisson `L/30` and `L/2`;
GOE `(1/π²)(ln(2πL) + γ − 5/4 − π²/8)` and `(2/π²)(ln(2πL) + γ + 1 − π²/8)`;
GUE `(1/(2π²))(ln(2πL) + γ − 5/4)` and `(1/π²)(ln(2πL) + γ + 1)`;
GSE `(1/(4π²))(ln(4πL) + γ − 5/4 + π²/8)` and
`(1/(2π²))(ln(4πL) + γ + 1 + π²/8)`. -/
theorem C1_rigidity_levelvar_closed_forms (lo hi : ℝ) (n : ℕ) (L : List ℝ) :
    (Poisson.spectral_rigidity lo hi n (some L) = L.map (fun x => x / 30)
      ∧ Poisson.spectral_rigidity lo hi n none
          = (linspace lo hi n).map (fun x => x / 30)
      ∧ (Poisson.spectral_rigidity lo hi n (some L)).length = L.length)
    ∧ (Poisson.level_variance lo hi n (some L) = L.map (fun x => x / 2)
      ∧ Poisson.level_variance lo hi n none
          = (linspace lo hi n).map (fun x => x / 2)
      ∧ (Poisson.level_variance lo hi n (some L)).length = L.length)
    ∧ (GOE.spectral_rigidity lo hi n (some L)
          = L.map (fun x => (1 / π ^ 2) *
              (log (2 * π * x) + eulerMascheroniConstant - 5 / 4 - π ^ 2 / 8))
      ∧ GOE.spectral_rigidity lo hi n none
          = (linspace lo hi n).map (fun x => (1 / π ^ 2) *
              (log (2 * π * x) + eulerMascheroniConstant - 5 / 4 - π ^ 2 / 8))
      ∧ (GOE.spectral_rigidity lo hi n (some L)).length = L.length)
    ∧ (GOE.level_variance lo hi n (some L)
          = L.map (fun x => (2 / π ^ 2) *
              (log (2 * π * x) + eulerMascheroniConstant + 1 - π ^ 2 / 8))
      ∧ GOE.level_variance lo hi n none
          = (linspace lo hi n).map (fun x => (2 / π ^ 2) *
              (log (2 * π * x) + eulerMascheroniConstant + 1 - π ^ 2 / 8))
      ∧ (GOE.level_variance lo hi n (some L)).length = L.length)
    ∧ (GUE.spectral_rigidity lo hi n (some L)
          = L.map (fun x => (1 / (2 * π ^ 2)) *
              (log (2 * π * x) + eulerMascheroniConstant - 5 / 4))
      ∧ GUE.spectral_rigidity lo hi n none
          = (linspace lo hi n).map (fun x => (1 / (2 * π ^ 2)) *
              (log (2 * π * x) + eulerMascheroniConstant - 5 / 4))
      ∧ (GUE.spectral_rigidity lo hi n (some L)).length = L.length)
    ∧ (GUE.level_variance lo hi n (some L)
          = L.map (fun x => (1 / π ^ 2) *
              (log (2 * π * x) + eulerMascheroniConstant + 1))
      ∧ GUE.level_variance lo hi n none
          = (linspace lo hi n).map (fun x => (1 / π ^ 2) *
              (log (2 * π * x) + eulerMascheroniConstant + 1))
      ∧ (GUE.level_variance lo hi n (some L)).length = L.length)
    ∧ (GSE.spectral_rigidity lo hi n (some L)
          = L.map (fun x => (1 / (4 * π ^ 2)) *
              (log (4 * π * x) + eulerMascheroniConstant - 5 / 4 + π ^ 2 / 8))
      ∧ GSE.spectral_rigidity lo hi n none
          = (linspace lo hi n).map (fun x => (1 / (4 * π ^ 2)) *
              (log (4 * π * x) + eulerMascheroniConstant - 5 / 4 + π ^ 2 / 8))
      ∧ (GSE.spectral_rigidity lo hi n (some L)).length = L.length)
    ∧ (GSE.level_variance lo hi n (some L)
          = L.map (fun x => (1 / (2 * π ^ 2)) *
              (log (4 * π * x) + eulerMascheroniConstant + 1 + π ^ 2 / 8))
      ∧ GSE.level_variance lo hi n none
          = (linspace lo hi n).map (fun x => (1 / (2 * π ^ 2)) *
              (log (4 * π * x) + eulerMascheroniConstant + 1 + π ^ 2 / 8))
      ∧ (GSE.level_variance lo hi n (some L)).length = L.length) := by
  have hpois : Poisson.rigidity_formula = fun x : ℝ => x / 30 :=
    funext fun x => by unfold Poisson.rigidity_formula; ring
  refine ⟨⟨?_, ?_, ?_⟩, ⟨rfl, rfl, ?_⟩, ⟨rfl, rfl, ?_⟩, ⟨rfl, rfl, ?_⟩,
    ⟨rfl, rfl, ?_⟩, ⟨rfl, rfl, ?_⟩, ⟨rfl, rfl, ?_⟩, ⟨rfl, rfl, ?_⟩⟩ <;>
    simp [Poisson.spectral_rigidity, Poisson.level_variance, hpois,
      GOE.spectral_rigidity, GOE.level_variance, GUE.spectral_rigidity,
      GUE.level_variance, GSE.spectral_rigidity, GSE.level_variance]

/-- C5 counterexample: `GUE.nnsd` called without explicit spacings and with
point-count argument `1000` returns `10000` values, not `1000` — the default
branch ignores the `n_points` argument. -/
theorem C5_counterexample_gue_nnsd_points :
    (GUE.nnsd (0, 3) 1000 none).length ≠ 1000 := by
  unfold GUE.nnsd
  rw [Option.getD_none, List.length_map, linspace_length]
  norm_num

/-- C5 amended: without explicit points, each implemented observable evaluates
its formula on a generated grid with the documented default ranges, except
that: GUE NNSD uses `linspace(range[0], range[1], 10000)` and GSE NNSD uses the
degenerate `linspace(range[0], range[0], 10000)`, both ignoring the point-count
argument; GOE NNNSD evaluates on the generated grid divided by 2; GUE and GSE
NNNSD fail with Not-implemented.  Rigidity and level variance use
`linspace(min_L, max_L, L_grid_size)` (defaults `(0.5, 20)`, 50 points). -/
theorem C5_amended_default_grids (r : ℝ × ℝ) (n : ℕ) (lo hi : ℝ) (m : ℕ) :
    (Poisson.nnsd r n none = (linspace r.1 r.2 n).map Poisson.nnsd_formula
      ∧ (Poisson.nnsd r n none).length = n)
    ∧ (Poisson.nnnsd r n none
          = (linspace r.1 r.2 n).map (fun s => Poisson.brody_dist s 0.6)
      ∧ (Poisson.nnnsd r n none).length = n)
    ∧ (GOE.nnsd r n none = (linspace r.1 r.2 n).map GOE.nnsd_formula
      ∧ (GOE.nnsd r n none).length = n)
    ∧ (GOE.nnnsd r n none
          = ((linspace r.1 r.2 n).map (fun x => x / 2)).map GOE.nnnsd_formula
      ∧ (GOE.nnnsd r n none).length = n)
    ∧ (GUE.nnsd r n none = (linspace r.1 r.2 10000).map GUE.nnsd_formula
      ∧ (GUE.nnsd r n none).length = 10000)
    ∧ (GSE.nnsd r n none = (linspace r.1 r.1 10000).map GSE.nnsd_formula
      ∧ (GSE.nnsd r n none).length = 10000)
    ∧ GUE.nnnsd r n none = Except.error "NotImplementedError"
    ∧ GSE.nnnsd r n none = Except.error "NotImplementedError"
    ∧ (Poisson.spectral_rigidity lo hi m none
          = (linspace lo hi m).map Poisson.rigidity_formula
      ∧ (Poisson.spectral_rigidity lo hi m none).length = m)
    ∧ (Poisson.level_variance lo hi m none
          = (linspace lo hi m).map Poisson.levelvar_formula
      ∧ (Poisson.level_variance lo hi m none).length = m)
    ∧ (GOE.spectral_rigidity lo hi m none
          = (linspace lo hi m).map GOE.rigidity_formula
      ∧ (GOE.spectral_rigidity lo hi m none).length = m)
    ∧ (GOE.level_variance lo hi m none
          = (linspace lo hi m).map GOE.levelvar_formula
      ∧ (GOE.level_variance lo hi m none).length = m)
    ∧ (GUE.spectral_rigidity lo hi m none
          = (linspace lo hi m).map GUE.rigidity_formula
      ∧ (GUE.spectral_rigidity lo hi m none).length = m)
    ∧ (GUE.level_variance lo hi m none
          = (linspace lo hi m).map GUE.levelvar_formula
      ∧ (GUE.level_variance lo hi m none).length = m)
    ∧ (GSE.spectral_rigidity lo hi m none
          = (linspace lo hi m).map GSE.rigidity_formula
      ∧ (GSE.spectral_rigidity lo hi m none).length = m)
    ∧ (GSE.level_variance lo hi m none
          = (linspace lo hi m).map GSE.levelvar_formula
      ∧ (GSE.level_variance lo hi m none).length = m) := by
  simp [Poisson.nnsd, Poisson.nnnsd, GOE.nnsd, GOE.nnnsd, GUE.nnsd, GSE.nnsd,
    GUE.nnnsd, GSE.nnnsd, Poisson.spectral_rigidity, Poisson.level_variance,
    GOE.spectral_rigidity, GOE.level_variance, GUE.spectral_rigidity,
    GUE.level_variance, GSE.spectral_rigidity, GSE.level_variance,
    linspace_length]

/-- C6: calling any implemented ensemble observable with an explicit
spacings/`L` list applies the stated formula pointwise to exactly those values,
and the result is independent of the range and point-count arguments. -/
theorem C6_explicit_points_override (pts : List ℝ) (r₁ r₂ : ℝ × ℝ) (n₁ n₂ : ℕ)
    (lo₁ hi₁ lo₂ hi₂ : ℝ) (m₁ m₂ : ℕ) :
    (Poisson.nnsd r₁ n₁ (some pts) = pts.map Poisson.nnsd_formula
      ∧ Poisson.nnsd r₁ n₁ (some pts) = Poisson.nnsd r₂ n₂ (some pts))
    ∧ (Poisson.nnnsd r₁ n₁ (some pts) = pts.map (fun s => Poisson.brody_dist s 0.6)
      ∧ Poisson.nnnsd r₁ n₁ (some pts) = Poisson.nnnsd r₂ n₂ (some pts))
    ∧ (GOE.nnsd r₁ n₁ (some pts) = pts.map GOE.nnsd_formula
      ∧ GOE.nnsd r₁ n₁ (some pts) = GOE.nnsd r₂ n₂ (some pts))
    ∧ (GOE.nnnsd r₁ n₁ (some pts) = pts.map GOE.nnnsd_formula
      ∧ GOE.nnnsd r₁ n₁ (some pts) = GOE.nnnsd r₂ n₂ (some pts))
    ∧ (GUE.nnsd r₁ n₁ (some pts) = pts.map GUE.nnsd_formula
      ∧ GUE.nnsd r₁ n₁ (some pts) = GUE.nnsd r₂ n₂ (some pts))
    ∧ (GSE.nnsd r₁ n₁ (some pts) = pts.map GSE.nnsd_formula
      ∧ GSE.nnsd r₁ n₁ (some pts) = GSE.nnsd r₂ n₂ (some pts))
    ∧ (Poisson.spectral_rigidity lo₁ hi₁ m₁ (some pts)
          = pts.map Poisson.rigidity_formula
      ∧ Poisson.spectral_rigidity lo₁ hi₁ m₁ (some pts)
          = Poisson.spectral_rigidity lo₂ hi₂ m₂ (some pts))
    ∧ (Poisson.level_variance lo₁ hi₁ m₁ (some pts)
          = pts.map Poisson.levelvar_formula
      ∧ Poisson.level_variance lo₁ hi₁ m₁ (some pts)
          = Poisson.level_variance lo₂ hi₂ m₂ (some pts))
    ∧ (GOE.spectral_rigidity lo₁ hi₁ m₁ (some pts)
          = pts.map GOE.rigidity_formula
      ∧ GOE.spectral_rigidity lo₁ hi₁ m₁ (some pts)
          = GOE.spectral_rigidity lo₂ hi₂ m₂ (some pts))
    ∧ (GOE.level_variance lo₁ hi₁ m₁ (some pts)
          = pts.map GOE.levelvar_formula
      ∧ GOE.level_variance lo₁ hi₁ m₁ (some pts)
          = GOE.level_variance lo₂ hi₂ m₂ (some pts))
    ∧ (GUE.spectral_rigidity lo₁ hi₁ m₁ (some pts)
          = pts.map GUE.rigidity_formula
      ∧ GUE.spectral_rigidity lo₁ hi₁ m₁ (some pts)
          = GUE.spectral_rigidity lo₂ hi₂ m₂ (some pts))
    ∧ (GUE.level_variance lo₁ hi₁ m₁ (some pts)
          = pts.map GUE.levelvar_formula
      ∧ GUE.level_variance lo₁ hi₁ m₁ (some pts)
          = GUE.level_variance lo₂ hi₂ m₂ (some pts))
    ∧ (GSE.spectral_rigidity lo₁ hi₁ m₁ (some pts)
          = pts.map GSE.rigidity_formula
      ∧ GSE.spectral_rigidity lo₁ hi₁ m₁ (some pts)
          = GSE.spectral_rigidity lo₂ hi₂ m₂ (some pts))
    ∧ (GSE.level_variance lo₁ hi₁ m₁ (some pts)
          = pts.map GSE.levelvar_formula
      ∧ GSE.level_variance lo₁ hi₁ m₁ (some pts)
          = GSE.level_variance lo₂ hi₂ m₂ (some pts)) := by
  simp [Poisson.nnsd, Poisson.nnnsd, GOE.nnsd, GOE.nnnsd, GUE.nnsd, GSE.nnsd,
    Poisson.spectral_rigidity, Poisson.level_variance, GOE.spectral_rigidity,
    GOE.level_variance, GUE.spectral_rigidity, GUE.level_variance,
    GSE.spectral_rigidity, GSE.level_variance]

/-- C7: `GSE.nnsd` without explicit spacings evaluates its formula — the same
functional form as GOE's NNNSD — on the degenerate constant grid
`linspace(range[0], range[0], 10000)`, so all 10000 returned values equal the
formula at `range[0]`; with the default range `(0.0, 3.0)` every returned value
is `0`. -/
theorem C7_gse_nnsd_degenerate_grid (r : ℝ × ℝ) (n : ℕ) :
    GSE.nnsd r n none = List.replicate 10000 (GSE.nnsd_formula r.1)
    ∧ GSE.nnsd (0, 3) 1000 none = List.replicate 10000 0
    ∧ (∀ s : ℝ, GSE.nnsd_formula s = GOE.nnnsd_formula s) := by
  have key : ∀ (q : ℝ × ℝ) (k : ℕ),
      GSE.nnsd q k none = List.replicate 10000 (GSE.nnsd_formula q.1) := by
    intro q k
    unfold GSE.nnsd
    rw [Option.getD_none, linspace_self, List.map_replicate]
  refine ⟨key r n, ?_, ?_⟩
  · rw [key (0, 3) 1000]
    have : GSE.nnsd_formula (0, 3).1 = 0 := by
      unfold GSE.nnsd_formula
      norm_num
    rw [this]
  · intro s
    unfold GSE.nnsd_formula GOE.nnnsd_formula
    norm_num

/-- C8: the four unimplemented operations — `generate_eigs` with
`kind="uniform"`, `generate_uniform`, `GUE.nnnsd` and `GSE.nnnsd` — fail on
every call, regardless of all other argument values, and never return a
value. -/
theorem C8_unimplemented_stubs (matsize : ℕ) (mean sd lower upper : ℝ)
    (eigvalsh : List ℝ) (r : ℝ × ℝ) (n : ℕ) (sp : Option (List ℝ)) :
    generate_eigs matsize mean sd .uniform eigvalsh = Except.error "UNIMPLEMENTED!"
    ∧ generate_uniform matsize lower upper = Except.error "NotImplementedError"
    ∧ GUE.nnnsd r n sp = Except.error "NotImplementedError"
    ∧ GSE.nnnsd r n sp = Except.error "NotImplementedError" :=
  ⟨rfl, rfl, rfl, rfl⟩

/-- C4 counterexample: with `matsize = 50` and `sub_matsize = 100` (positive
integers with `sub_matsize ≥ matsize`), `fast_poisson_eigs` does not fail: the
`matsize < 100` fallback runs before the size check and returns the
`generate_eigs(matsize, kind="goe")` result. -/
theorem C4_counterexample_small_matsize :
    fast_poisson_eigs 50 100 (fun i => []) [] [] = Except.ok [] := by
  unfold fast_poisson_eigs
  rw [if_pos (by norm_num)]
  rfl

/-- C4 amended: for `matsize ≥ 100` and `sub_matsize ≥ matsize`,
`fast_poisson_eigs` fails with the Invalid-argument error (for
`matsize < 100` the size check is bypassed by the `generate_eigs` fallback). -/
theorem C4_amended_submatrix_size_check (matsize sub_matsize : ℕ)
    (sub_eigvalsh : ℕ → List ℝ) (remain_eigvalsh goe_eigvalsh : List ℝ)
    (h100 : 100 ≤ matsize) (hge : matsize ≤ sub_matsize) :
    fast_poisson_eigs matsize sub_matsize sub_eigvalsh remain_eigvalsh goe_eigvalsh
      = Except.error "Submatrices must be smaller in order to speed calculation." := by
  unfold fast_poisson_eigs
  rw [if_neg (by omega), if_pos (by omega)]

/-- Witness for `C4_amended_submatrix_size_check` at
`matsize = 100`, `sub_matsize = 100`. -/
theorem C4_amended_submatrix_size_check_witness :
    100 ≤ 100 ∧ 100 ≤ 100 ∧
      fast_poisson_eigs 100 100 (fun i => []) [] []
        = Except.error "Submatrices must be smaller in order to speed calculation." :=
  ⟨by norm_num, by norm_num,
    C4_amended_submatrix_size_check 100 100 (fun i => []) [] []
      (by norm_num) (by norm_num)⟩

/-- C9 counterexample: the `Unfolded` constructor performs no validation, so it
accepts the pair `([0, 1, 2], [0])` and produces an object whose two sequences
have different lengths — the equal-length invariant is not established by the
constructor. -/
theorem C9_counterexample_no_length_check :
    (Unfolded.init [0, 1, 2] [0]).originals.length
      ≠ (Unfolded.init [0, 1, 2] [0]).values.length := by
  simp [Unfolded.init, Unfolded.values]

/-- C9 amended: the `Unfolded` constructor stores both sequences exactly as
given, without validating them, so `len(originals) == len(unfolded)` holds
precisely when the constructor arguments have equal length; `goe_unfolded`
always constructs with equal lengths (the source never mutates the stored
sequences afterwards). -/
theorem C9_amended_parallel_sequences (originals unfolded : List ℝ)
    (N : ℕ) (eigs : List ℝ) :
    (Unfolded.init originals unfolded).originals = originals
    ∧ (Unfolded.init originals unfolded).values = unfolded
    ∧ ((Unfolded.init originals unfolded).originals.length
        = (Unfolded.init originals unfolded).values.length
          ↔ originals.length = unfolded.length)
    ∧ (goe_unfolded N eigs).originals.length
        = (goe_unfolded N eigs).values.length := by
  refine ⟨rfl, rfl, Iff.rfl, ?_⟩
  simp [goe_unfolded, Unfolded.init, Unfolded.values]

/-- C10: the `values` and `vals` accessors both return the `unfolded`
constructor argument (not `originals`), and `plot_spectral_rigidity` and
`plot_level_variance` pass exactly that sequence to the rigidity and
level-variance estimators, so their numeric results depend only on those
unfolded values. -/
theorem C10_plots_use_unfolded_values {P : Type} (o o₁ o₂ u : List ℝ)
    (rig lvar : List ℝ → ℕ → Option ℕ → ℝ → ℝ → List ℝ × List ℝ)
    (render₁ render₂ : List ℝ → List ℝ × List ℝ → Option P)
    (min_L max_L : ℝ) (gs : Option ℕ) (ci : ℕ) :
    (Unfolded.init o u).values = u
    ∧ (Unfolded.init o u).vals = u
    ∧ plot_spectral_rigidity rig render₁ (Unfolded.init o₁ u) min_L max_L gs ci
        = plot_spectral_rigidity rig render₁ (Unfolded.init o₂ u) min_L max_L gs ci
    ∧ (plot_spectral_rigidity rig render₁ (Unfolded.init o u) min_L max_L gs ci).1
        = (rig u ci gs min_L max_L).1
    ∧ (plot_spectral_rigidity rig render₁ (Unfolded.init o u) min_L max_L gs ci).2.1
        = (rig u ci gs min_L max_L).2
    ∧ plot_level_variance lvar render₂ (Unfolded.init o₁ u) min_L max_L gs ci
        = plot_level_variance lvar render₂ (Unfolded.init o₂ u) min_L max_L gs ci
    ∧ (plot_level_variance lvar render₂ (Unfolded.init o u) min_L max_L gs ci).1
        = (lvar u ci gs min_L max_L).1
    ∧ (plot_level_variance lvar render₂ (Unfolded.init o u) min_L max_L gs ci).2.1
        = (lvar u ci gs min_L max_L).2 :=
  ⟨rfl, rfl, rfl, rfl, rfl, rfl, rfl, rfl⟩

/-- C3: for `matsize ≥ 100` and `1 ≤ sub_matsize < matsize`,
`fast_poisson_eigs` returns a non-decreasing list of exactly `matsize`
eigenvalues, assembled as `matsize / sub_matsize` sub-blocks of `sub_matsize`
eigenvalues each plus one remainder block of `matsize % sub_matsize`
eigenvalues, sorted ascending (also when the remainder block is empty). -/
theorem C3_fast_poisson_eigs_assembly (matsize sub_matsize : ℕ)
    (sub_eigvalsh : ℕ → List ℝ) (remain_eigvalsh goe_eigvalsh : List ℝ)
    (h100 : 100 ≤ matsize) (hpos : 1 ≤ sub_matsize) (hlt : sub_matsize < matsize)
    (hsub : ∀ i < matsize / sub_matsize, (sub_eigvalsh i).length = sub_matsize)
    (hrem : remain_eigvalsh.length = matsize % sub_matsize) :
    ∃ eigs : List ℝ,
      fast_poisson_eigs matsize sub_matsize sub_eigvalsh remain_eigvalsh goe_eigvalsh
        = Except.ok eigs
      ∧ eigs.length = matsize
      ∧ eigs.Sorted (· ≤ ·)
      ∧ eigs.Perm (((List.range (matsize / sub_matsize)).map sub_eigvalsh).flatten
          ++ remain_eigvalsh) := by
  refine ⟨(((List.range (matsize / sub_matsize)).map sub_eigvalsh).flatten
      ++ remain_eigvalsh).mergeSort, ?_, ?_, ?_, ?_⟩
  · unfold fast_poisson_eigs
    rw [if_neg (by omega), if_neg (by omega)]
  · rw [(List.mergeSort_perm _ _).length_eq, List.length_append,
      List.length_flatten, hrem, List.map_map]
    have hconst : (List.range (matsize / sub_matsize)).map
          (List.length ∘ sub_eigvalsh)
        = (List.range (matsize / sub_matsize)).map (fun i => sub_matsize) :=
      List.map_congr_left fun i hi => hsub i (List.mem_range.mp hi)
    rw [hconst, List.map_const', List.length_range, List.sum_const_nat, mul_comm]
    exact Nat.div_add_mod matsize sub_matsize
  · exact List.sorted_mergeSort' _
  · exact List.mergeSort_perm _ _

/-- Witness for `C3_fast_poisson_eigs_assembly` at `matsize = 100`,
`sub_matsize = 50`, with two zero sub-blocks and an empty remainder block. -/
theorem C3_fast_poisson_eigs_assembly_witness :
    ∃ eigs : List ℝ,
      fast_poisson_eigs 100 50 (fun i => List.replicate 50 0) [] []
        = Except.ok eigs
      ∧ eigs.length = 100
      ∧ eigs.Sorted (· ≤ ·)
      ∧ eigs.Perm (((List.range (100 / 50)).map (fun i => List.replicate 50 (0 : ℝ))).flatten
          ++ []) :=
  C3_fast_poisson_eigs_assembly 100 50 (fun i => List.replicate 50 0) [] []
    (by norm_num) (by norm_num) (by norm_num)
    (fun i hi => by simp) (by simp)

/-- Upper bound for the semicircle-CDF combination in `explicit` at
nonnegative `E`: `E·c/(4N) + arctan(E/c) ≤ π/2` for `c = √(4N − E²)`. -/
theorem explicit_core_le (N : ℕ) (hN : 0 < N) (E : ℝ) (hE : 0 ≤ E)
    (hE2 : E * E ≤ 4 * N) :
    E * Real.sqrt (4 * N - E * E) / (4 * N)
      + arctan (E / Real.sqrt (4 * N - E * E)) ≤ π / 2 := by
  set c := Real.sqrt (4 * N - E * E) with hc_def
  have hc0 : 0 ≤ c := Real.sqrt_nonneg _
  have hNR : (0 : ℝ) < (N : ℝ) := by exact_mod_cast hN
  rcases eq_or_lt_of_le hc0 with hceq | hc
  · rw [← hceq]
    simp only [mul_zero, zero_div, div_zero, arctan_zero, add_zero]
    positivity
  · rcases eq_or_lt_of_le hE with hE0 | hEpos
    · rw [← hE0]
      simp only [zero_mul, zero_div, arctan_zero, add_zero, zero_add]
      positivity
    · have hEne : E ≠ 0 := ne_of_gt hEpos
      have hnn : (0 : ℝ) ≤ 4 * N - E * E := by linarith
      have hc2 : c ^ 2 = 4 * N - E * E := by
        rw [hc_def]; exact Real.sq_sqrt hnn
      set s := Real.sqrt (4 * N) with hs_def
      have hs2 : s ^ 2 = 4 * N := by
        rw [hs_def]; exact Real.sq_sqrt (by linarith)
      have hs : 0 < s := by
        rw [hs_def]; exact Real.sqrt_pos.mpr (by linarith)
      have hsne : s ≠ 0 := ne_of_gt hs
      have hEs : E ≤ s := by
        rw [hs_def]; exact Real.le_sqrt_of_sq_le (by rw [sq]; exact hE2)
      have hinv : arctan (c / E) = π / 2 - arctan (E / c) := by
        have h := arctan_inv_of_pos (div_pos hEpos hc)
        rwa [inv_div] at h
      have hsin : Real.sin (arctan (c / E)) = c / s := by
        rw [sin_arctan]
        have h1c : 1 + (c / E) ^ 2 = (s / E) ^ 2 := by
          field_simp
          linear_combination hc2 - hs2
        rw [h1c, Real.sqrt_sq (div_nonneg hs.le hEpos.le)]
        field_simp
      have harc_pos : 0 < arctan (c / E) := by
        rw [← arctan_zero]
        exact arctan_strictMono (div_pos hc hEpos)
      have hle : c / s < arctan (c / E) := by
        have h := Real.sin_lt harc_pos
        rwa [hsin] at h
      have h4N : (4 : ℝ) * N = s * s := by nlinarith [hs2]
      have hstep : E * c / (4 * N) ≤ c / s := by
        rw [h4N]
        have h1 : E * c ≤ s * c := mul_le_mul_of_nonneg_right hEs hc0
        have h2 : E * c / (s * s) ≤ s * c / (s * s) :=
          (div_le_div_right (by positivity)).mpr h1
        have h3 : s * c / (s * s) = c / s := by
          field_simp
          ring
        linarith [h2, h3.le, h3.ge]
      have harc : arctan (E / c) = π / 2 - arctan (c / E) := by linarith [hinv]
      rw [harc]
      linarith [hstep, hle]

/-- The combination in `explicit` is nonnegative at nonnegative `E`. -/
theorem explicit_core_nonneg (N : ℕ) (E : ℝ) (hE : 0 ≤ E) :
    0 ≤ E * Real.sqrt (4 * N - E * E) / (4 * N)
      + arctan (E / Real.sqrt (4 * N - E * E)) := by
  have h1 : 0 ≤ E * Real.sqrt (4 * N - E * E) / (4 * N) :=
    div_nonneg (mul_nonneg hE (Real.sqrt_nonneg _)) (by positivity)
  have h2 : 0 ≤ arctan (E / Real.sqrt (4 * N - E * E)) := by
    rw [← arctan_zero]
    exact arctan_strictMono.monotone (div_nonneg hE (Real.sqrt_nonneg _))
  linarith

/-- The combination in `explicit` is odd in `E`. -/
theorem explicit_core_neg (N : ℕ) (E : ℝ) :
    (-E) * Real.sqrt (4 * N - (-E) * (-E)) / (4 * N)
      + arctan ((-E) / Real.sqrt (4 * N - (-E) * (-E)))
    = -(E * Real.sqrt (4 * N - E * E) / (4 * N)
      + arctan (E / Real.sqrt (4 * N - E * E))) := by
  have h : 4 * (N : ℝ) - (-E) * (-E) = 4 * N - E * E := by ring
  rw [h, neg_div, arctan_neg]
  ring

/-- Bound `|E·c/(4N) + arctan(E/c)| ≤ π/2` whenever `E² ≤ 4N`. -/
theorem explicit_core_abs_le (N : ℕ) (hN : 0 < N) (E : ℝ)
    (hE2 : E * E ≤ 4 * N) :
    |E * Real.sqrt (4 * N - E * E) / (4 * N)
      + arctan (E / Real.sqrt (4 * N - E * E))| ≤ π / 2 := by
  rcases le_total 0 E with hE | hE
  · rw [abs_le]
    refine ⟨?_, explicit_core_le N hN E hE hE2⟩
    have h := explicit_core_nonneg N E hE
    have hπ := pi_pos
    linarith
  · have hE' : 0 ≤ -E := neg_nonneg.mpr hE
    have hE2' : -E * -E ≤ 4 * (N : ℝ) := by nlinarith
    have hodd := explicit_core_neg N E
    have hup := explicit_core_le N hN (-E) hE' hE2'
    have hdn := explicit_core_nonneg N (-E) hE'
    have hπ := pi_pos
    rw [abs_le]
    constructor
    · linarith [hup, hodd]
    · linarith [hdn, hodd]

/-- For positive `N`, the unscaled closed-form value `explicit N E` always
lies in `[0, 1]`. -/
theorem explicit_mem_unit (N : ℕ) (hN : 0 < N) (E : ℝ) :
    0 ≤ explicit N E ∧ explicit N E ≤ 1 := by
  unfold explicit
  split_ifs with h1 h2
  · have hq : Real.sqrt N * Real.sqrt N = N :=
      Real.mul_self_sqrt (Nat.cast_nonneg N)
    have hE2 : E * E ≤ 4 * N := by
      have h0 : |E| * |E| ≤ 2 * Real.sqrt N * (2 * Real.sqrt N) :=
        mul_self_le_mul_self (abs_nonneg E) h1
      calc E * E = |E| * |E| := (abs_mul_abs_self E).symm
        _ ≤ 2 * Real.sqrt N * (2 * Real.sqrt N) := h0
        _ = 4 * (Real.sqrt N * Real.sqrt N) := by ring
        _ = 4 * N := by rw [hq]
    have key := explicit_core_abs_le N hN E hE2
    rw [abs_le] at key
    have hπ : 0 < π := pi_pos
    have hNne : (N : ℝ) ≠ 0 := Nat.cast_ne_zero.mpr hN.ne'
    have heq : E / (4 * N * π) * Real.sqrt (4 * N - E * E)
        + 1 / π * arctan (E / Real.sqrt (4 * N - E * E))
        = (E * Real.sqrt (4 * N - E * E) / (4 * N)
          + arctan (E / Real.sqrt (4 * N - E * E))) / π := by
      field_simp
      ring
    have hKlo : -(π / 2) / π ≤ (E * Real.sqrt (4 * N - E * E) / (4 * N)
        + arctan (E / Real.sqrt (4 * N - E * E))) / π :=
      (div_le_div_right hπ).mpr key.1
    have hKhi : (E * Real.sqrt (4 * N - E * E) / (4 * N)
        + arctan (E / Real.sqrt (4 * N - E * E))) / π ≤ (π / 2) / π :=
      (div_le_div_right hπ).mpr key.2
    have hhalf : (π / 2) / π = 1 / 2 := by
      field_simp
      ring
    have hnhalf : -(π / 2) / π = -(1 / 2) := by
      field_simp
      ring
    constructor
    · rw [hnhalf] at hKlo
      linarith [heq, hKlo]
    · rw [hhalf] at hKhi
      linarith [heq, hKhi]
  · exact ⟨le_refl 0, by norm_num⟩
  · exact ⟨by norm_num, le_refl 1⟩

/-- For `|E| > 2√N`, `explicit N E` is exactly `0` or exactly `1`. -/
theorem explicit_boundary (N : ℕ) (E : ℝ) (h : 2 * Real.sqrt N < |E|) :
    explicit N E = 0 ∨ explicit N E = 1 := by
  unfold explicit
  rw [if_neg (not_le.mpr h)]
  split_ifs
  · exact Or.inl rfl
  · exact Or.inr rfl

/-- C2: for positive `N` and ascending eigenvalues `eigs` of the generated GOE
matrix (`eigs` has length `N`), `goe_unfolded N eigs` stores `eigs` as its
originals and the `i`-th unfolded value is `N * explicit N eigs[i]` — `N`
times the unscaled closed form `0.5 + (E/(4Nπ))√(4N−E²) +
(1/π)arctan(E/√(4N−E²))` for `|E| ≤ 2√N`, `0` for `E < −2√N` and `1` for
`E > 2√N`; consequently every unfolded value lies in `[0, N]`, and any
eigenvalue with `|E| > 2√N` maps to exactly `0` or exactly `N`. -/
theorem C2_goe_unfolded_closed_form (N : ℕ) (eigs : List ℝ) (hN : 0 < N)
    (hlen : eigs.length = N) (hsorted : eigs.Sorted (· ≤ ·)) :
    (goe_unfolded N eigs).originals = eigs
    ∧ (goe_unfolded N eigs).originals.Sorted (· ≤ ·)
    ∧ (goe_unfolded N eigs).values.length = N
    ∧ (∀ i : ℕ, (goe_unfolded N eigs).values[i]?
        = (eigs[i]?).map (fun E => (N : ℝ) * explicit N E))
    ∧ (∀ v ∈ (goe_unfolded N eigs).values, 0 ≤ v ∧ v ≤ N)
    ∧ (∀ E ∈ eigs, 2 * Real.sqrt N < |E| →
        (N : ℝ) * explicit N E = 0 ∨ (N : ℝ) * explicit N E = N) := by
  refine ⟨rfl, hsorted, ?_, ?_, ?_, ?_⟩
  · simp [goe_unfolded, Unfolded.init, Unfolded.values, hlen]
  · intro i
    simp [goe_unfolded, Unfolded.init, Unfolded.values]
  · intro v hv
    simp only [goe_unfolded, Unfolded.init, Unfolded.values, List.mem_map] at hv
    obtain ⟨E, hE, rfl⟩ := hv
    obtain ⟨h0, h1⟩ := explicit_mem_unit N hN E
    have hN0 : (0 : ℝ) ≤ (N : ℝ) := Nat.cast_nonneg N
    constructor
    · exact mul_nonneg hN0 h0
    · calc (N : ℝ) * explicit N E ≤ (N : ℝ) * 1 :=
            mul_le_mul_of_nonneg_left h1 hN0
        _ = (N : ℝ) := mul_one _
  · intro E hE hgt
    rcases explicit_boundary N E hgt with h | h
    · exact Or.inl (by rw [h, mul_zero])
    · exact Or.inr (by rw [h, mul_one])

/-- Witness for `C2_goe_unfolded_closed_form` at `N = 1`, `eigs = [0]`. -/
theorem C2_goe_unfolded_closed_form_witness :
    0 < 1 ∧ ([(0 : ℝ)] : List ℝ).length = 1
      ∧ ([(0 : ℝ)] : List ℝ).Sorted (· ≤ ·)
      ∧ ((goe_unfolded 1 [0]).originals = [0]
        ∧ (goe_unfolded 1 [0]).originals.Sorted (· ≤ ·)
        ∧ (goe_unfolded 1 [0]).values.length = 1
        ∧ (∀ i : ℕ, (goe_unfolded 1 [0]).values[i]?
            = (([(0 : ℝ)] : List ℝ)[i]?).map (fun E => (1 : ℝ) * explicit 1 E))
        ∧ (∀ v ∈ (goe_unfolded 1 [0]).values, 0 ≤ v ∧ v ≤ 1)
        ∧ (∀ E ∈ ([(0 : ℝ)] : List ℝ), 2 * Real.sqrt 1 < |E| →
            (1 : ℝ) * explicit 1 E = 0 ∨ (1 : ℝ) * explicit 1 E = 1)) := by
  refine ⟨by norm_num, by simp, by simp, ?_⟩
  have h := C2_goe_unfolded_closed_form 1 [0] (by norm_num) (by simp) (by simp)
  simpa using h

end EmpyricalRMT
